import Mathlib

/-!
Verification development for the pandoc-based file-conversion MCP server
(`src/server.py`).  The Python helpers are shallowly embedded as pure Lean
functions; every filesystem- or environment-touching primitive the helpers
consult (`os.path.exists`, `os.access(.., X_OK)`, `os.chmod`, `shutil.which`,
`yaml.safe_load` on the defaults file, the pandoc invocation itself) is a
field of an explicit state record `FS`, passed to the embedded functions.

Modelling notes (all deviations from the Python source are listed here):
* Paths are POSIX paths (separator `/`).  `os.path.abspath` is modelled as
  "join with the current working directory when relative"; the `normpath`
  normalisation of `.` and `..` segments is omitted (no claim depends on it).
* `str.lower` is modelled as an ASCII lowering (`Char.toLower`); every
  extension and format identifier in the source is ASCII.
* `supported_formats` is a Python `set` literal, whose iteration order (used
  only inside the "Unsupported output format" message) is unspecified; the
  model keeps the source-literal order.
* The `"to"` value of a parsed defaults file is modelled as a string.
* The mutation of `os.environ["PANDOC_OUTPUT_DIR"]` performed by
  `_prepare_conversion_args` is returned explicitly in `PrepResult` /
  `CallResult` (field `envOutputDir`), and "the engine was invoked / the
  output file was written" are the explicit fields `engineInvoked` /
  `fileWritten` of `CallResult`.
-/

/-! ## Character-list utilities (Python `str` helpers) -/

/-- Python `hay.startswith(needle)` on character lists. -/
def strStartsWithChars : List Char → List Char → Bool
  | _, [] => true
  | [], _ :: _ => false
  | a :: as, b :: bs => a == b && strStartsWithChars as bs

/-- Python `needle in hay` (substring test) on character lists. -/
def hasSubChars : List Char → List Char → Bool
  | [], needle => needle.isEmpty
  | a :: as, needle => strStartsWithChars (a :: as) needle || hasSubChars as needle

/-- Python `needle in hay` on strings. -/
def pyIn (needle hay : String) : Bool :=
  hasSubChars hay.toList needle.toList

/-- Python `s.lower()` (ASCII). -/
def lowerStr (s : String) : String :=
  String.mk (s.toList.map Char.toLower)

/-- The suffix of `l` strictly after the last occurrence of `c`
(`l` itself when `c` does not occur). -/
def takeAfterLast (c : Char) (l : List Char) : List Char :=
  (l.reverse.takeWhile (fun a => a != c)).reverse

/-- The prefix of `l` up to and including the last occurrence of `c`
(`[]` when `c` does not occur). -/
def dropThroughLast (c : Char) (l : List Char) : List Char :=
  (l.reverse.dropWhile (fun a => a != c)).reverse

/-! ## POSIX path helpers (`os.path`) -/

/-- `os.path.isabs` (POSIX): the path starts with `/`. -/
def isAbs (p : String) : Bool :=
  match p.toList with
  | '/' :: _ => true
  | _ => false

/-- Does the path end with `/`? -/
def endsWithSlash (p : String) : Bool :=
  match p.toList.reverse with
  | '/' :: _ => true
  | _ => false

/-- `os.path.join(a, b)` (POSIX, two arguments). -/
def pathJoin (a b : String) : String :=
  if isAbs b then b
  else if a = "" then a ++ b
  else if endsWithSlash a then a ++ b
  else a ++ "/" ++ b

/-- `os.path.dirname` (POSIX): everything up to the last `/`, with trailing
slashes stripped unless the head is all slashes. -/
def dirnameChars (l : List Char) : List Char :=
  let head := dropThroughLast '/' l
  if head = [] then head
  else if head.all (fun a => a == '/') then head
  else (head.reverse.dropWhile (fun a => a == '/')).reverse

/-- `os.path.dirname` on strings. -/
def dirname (p : String) : String :=
  String.mk (dirnameChars p.toList)

/-- `os.path.basename` (POSIX). -/
def basename (p : String) : String :=
  String.mk (takeAfterLast '/' p.toList)

/-- The extension part of `os.path.splitext` (POSIX): the substring of the
basename from its last dot on, provided some non-dot character of the
basename precedes that dot (leading dots never start an extension). -/
def extChars (l : List Char) : List Char :=
  let b := takeAfterLast '/' l
  let s := b.dropWhile (fun a => a == '.')
  if s.any (fun a => a == '.') then '.' :: takeAfterLast '.' s else []

/-- `os.path.splitext(p)[1].lower()`, as used by the format inference. -/
def lowerExt (p : String) : String :=
  String.mk ((extChars p.toList).map Char.toLower)

/-! ## External state consulted by the helpers -/

/-- Outcome of `yaml.safe_load` on the defaults file (plus the `open` call). -/
inductive DefaultsParse where
  /-- Parsed successfully to a mapping; the field carries the value of the
  `"to"` key when present. -/
  | mapping (toVal : Option String) : DefaultsParse
  /-- Parsed successfully but the root is not a mapping. -/
  | nonMapping : DefaultsParse
  /-- `yaml.YAMLError` with message `m`. -/
  | yamlError (m : String) : DefaultsParse
  /-- `PermissionError` while opening/reading. -/
  | permissionDenied : DefaultsParse
  /-- Any other exception with message `m`. -/
  | readError (m : String) : DefaultsParse

/-- Outcome of the `pypandoc.convert_text` / `pypandoc.convert_file` call. -/
inductive EngineOutcome where
  | success : EngineOutcome
  /-- The engine raised; `t` is `str(e)`. -/
  | failure (t : String) : EngineOutcome

/-- The ambient state a request runs against: filesystem predicates, the
executable search path, the defaults-file parser and the engine itself. -/
structure FS where
  /-- `os.getcwd()`, used by `os.path.abspath`. -/
  cwd : String
  /-- `os.path.expanduser("~")`. -/
  home : String
  /-- `os.path.exists`. -/
  pathExists : String → Bool
  /-- `os.access(p, os.X_OK)`. -/
  isExec : String → Bool
  /-- Whether `os.chmod(p, .. | 0o111)` succeeds. -/
  chmodOk : String → Bool
  /-- `shutil.which(name)` finds the executable. -/
  which : String → Bool
  /-- `yaml.safe_load` on the given defaults file. -/
  defaultsParse : String → DefaultsParse
  /-- What the pandoc invocation does for this request. -/
  engineRun : EngineOutcome

/-- `os.path.abspath` (normalisation of `.`/`..` omitted, see header). -/
def abspath (fs : FS) (p : String) : String :=
  if isAbs p then p else pathJoin fs.cwd p

/-! ## Python truthiness -/

/-- Python truthiness of an optional string (`None` and `""` are falsy). -/
def truthyS : Option String → Bool
  | none => false
  | some s => if s = "" then false else true

/-- Python truthiness of an optional list (`None` and `[]` are falsy). -/
def truthyL : Option (List String) → Bool
  | none => false
  | some l => if l = [] then false else true

/-! ## `_infer_format_from_extension` -/

/-- The `ext_to_format` mapping, in source order. -/
def ext_to_format : List (String × String) :=
  [(".txt", "plain"), (".html", "html"), (".htm", "html"), (".md", "markdown"),
   (".markdown", "markdown"), (".ipynb", "ipynb"), (".odt", "odt"),
   (".pdf", "pdf"), (".docx", "docx"), (".doc", "docx"), (".rst", "rst"),
   (".tex", "latex"), (".latex", "latex"), (".epub", "epub")]

/-- `_infer_format_from_extension`: look the lower-cased extension up in the
mapping, or raise `ValueError` listing every supported extension. -/
def infer_format_from_extension (file_path : String) : Except String String :=
  match ext_to_format.find? (fun kv => kv.1 == lowerExt file_path) with
  | some kv => Except.ok kv.2
  | none =>
      Except.error ("Unsupported file extension: \x27" ++ lowerExt file_path ++
        "\x27. Supported extensions: " ++
        String.intercalate ", " (ext_to_format.map Prod.fst))

/-! ## `_validate_conversion_params` -/

/-- The `supported_formats` set, kept in source-literal order (Python set
iteration order is unspecified; only the error message depends on it). -/
def supported_formats : List String :=
  ["html", "markdown", "pdf", "docx", "rst", "latex", "epub", "txt",
   "ipynb", "odt"]

/-- The `reference_doc` checks of `_validate_conversion_params`:
`some msg` when a `ValueError` is raised. -/
def refDocError (output_format : String) (reference_doc : Option String)
    (fs : FS) : Option String :=
  if truthyS reference_doc then
    if output_format ≠ "docx" then
      some "reference_doc parameter is only supported for docx output format"
    else if fs.pathExists (reference_doc.getD "") then none
    else some ("Reference document not found: " ++ reference_doc.getD "")
  else none

/-- The console warning printed when the defaults file declares a
conflicting output format. -/
def warnMsg (t output_format : String) : String :=
  "Warning: Defaults file specifies output format \x27" ++ t ++
    "\x27 but requested format is \x27" ++ output_format ++
    "\x27. Using requested format."

/-- The `defaults_file` checks of `_validate_conversion_params`.  Returns the
warnings printed, or the `ValueError` message.  Note that the source raises
the "must be a YAML dictionary" `ValueError` inside its own `try`, so the
generic `except Exception` handler rewraps it as an "Error reading" message. -/
def defaultsCheck (output_format : String) (defaults_file : Option String)
    (fs : FS) : Except String (List String) :=
  if truthyS defaults_file then
    if fs.pathExists (defaults_file.getD "") then
      match fs.defaultsParse (defaults_file.getD "") with
      | DefaultsParse.mapping (some t) =>
          if t ≠ output_format then Except.ok [warnMsg t output_format]
          else Except.ok []
      | DefaultsParse.mapping none => Except.ok []
      | DefaultsParse.nonMapping =>
          Except.error ("Error reading defaults file " ++
            defaults_file.getD "" ++ ": Invalid defaults file format: " ++
            defaults_file.getD "" ++ " - must be a YAML dictionary")
      | DefaultsParse.yamlError m =>
          Except.error ("Error parsing defaults file " ++
            defaults_file.getD "" ++ ": " ++ m)
      | DefaultsParse.permissionDenied =>
          Except.error ("Permission denied when reading defaults file: " ++
            defaults_file.getD "")
      | DefaultsParse.readError m =>
          Except.error ("Error reading defaults file " ++
            defaults_file.getD "" ++ ": " ++ m)
    else Except.error ("Defaults file not found: " ++ defaults_file.getD "")
  else Except.ok []

/-- The supported-output-format allowlist check. -/
def formatAllowError (output_format : String) : Option String :=
  if output_format ∈ supported_formats then none
  else
    some ("Unsupported output format: \x27" ++ output_format ++
      "\x27. Supported formats are: " ++
      String.intercalate ", " supported_formats)

/-- `_validate_conversion_params`.  Returns the warnings printed on success,
or the first `ValueError` message.  The final `filters` checks
(`isinstance` of the list and of each entry) cannot fail in the typed
model and are omitted. -/
def validate_conversion_params (output_format : String)
    (reference_doc : Option String) (filters : Option (List String))
    (defaults_file : Option String) (fs : FS) : Except String (List String) :=
  match refDocError output_format reference_doc fs with
  | some e => Except.error e
  | none =>
      match defaultsCheck output_format defaults_file fs with
      | Except.error e => Except.error e
      | Except.ok warns =>
          match formatAllowError output_format with
          | some e => Except.error e
          | none => Except.ok warns

/-! ## `_resolve_filter_path` and `_validate_filters` -/

/-- `~/.pandoc/filters/<basename of the reference>`. -/
def userFilterDir (fs : FS) (filter_path : String) : String :=
  pathJoin (pathJoin (pathJoin fs.home ".pandoc") "filters")
    (basename filter_path)

/-- The candidate list tried by `_resolve_filter_path`: the path itself when
absolute, otherwise (1) relative to the working directory, (2) relative to
the defaults-file directory when one was supplied (Python truthiness), and
(3) by basename in the user filter directory. -/
def candidatePaths (filter_path : String) (defaults_file : Option String)
    (fs : FS) : List String :=
  if isAbs filter_path then [filter_path]
  else
    [abspath fs filter_path] ++
    (match defaults_file with
     | some d => if d = "" then [] else
         [pathJoin (dirname (abspath fs d)) filter_path]
     | none => []) ++
    [userFilterDir fs filter_path]

/-- The scan loop of `_resolve_filter_path`: the first existing candidate is
returned if it is executable or the best-effort `chmod` succeeds; an
existing candidate that cannot be made executable is skipped. -/
def scanCandidates (fs : FS) : List String → Option String
  | [] => none
  | p :: rest =>
      if fs.pathExists p then
        if fs.isExec p then some p
        else if fs.chmodOk p then some p
        else scanCandidates fs rest
      else scanCandidates fs rest

/-- `_resolve_filter_path`. -/
def resolve_filter_path (filter_path : String) (defaults_file : Option String)
    (fs : FS) : Option String :=
  scanCandidates fs (candidatePaths filter_path defaults_file fs)

/-- A candidate the scan loop accepts: it exists and is executable, or it
exists and the best-effort `chmod` succeeds. -/
def usable (fs : FS) (p : String) : Bool :=
  fs.pathExists p && (fs.isExec p || fs.chmodOk p)

/-- `_validate_filters`: resolve every reference in order, failing on the
first reference that resolves to no candidate. -/
def validate_filters (filters : List String) (defaults_file : Option String)
    (fs : FS) : Except String (List String) :=
  match filters with
  | [] => Except.ok []
  | f :: rest =>
      match resolve_filter_path f defaults_file fs with
      | some r =>
          match validate_filters rest defaults_file fs with
          | Except.ok vs => Except.ok (r :: vs)
          | Except.error e => Except.error e
      | none =>
          Except.error ("Filter not found in any of the searched locations: "
            ++ f)

/-! ## `_format_result_info` -/

/-- `_format_result_info`: the filter and defaults fragments of the success
message. -/
def format_result_info (filters : Option (List String))
    (defaults_file : Option String) (validated_filters : List String) :
    String × String :=
  (if truthyL filters && !validated_filters.isEmpty then
     " with filters: " ++
       String.intercalate ", " (validated_filters.map basename)
   else "",
   if truthyS defaults_file then
     " using defaults file: " ++ basename (defaults_file.getD "")
   else "")

/-! ## `_prepare_conversion_args` -/

/-- The defaults-file token pair. -/
def defaultsArgs (defaults_file : Option String) (fs : FS) : List String :=
  if truthyS defaults_file then
    ["--defaults", abspath fs (defaults_file.getD "")]
  else []

/-- The value `os.environ["PANDOC_OUTPUT_DIR"]` is set to (set whenever an
output file is given, before the filter and PDF steps run). -/
def envHint (output_file : Option String) (fs : FS) : Option String :=
  if truthyS output_file then
    some (dirname (abspath fs (output_file.getD "")))
  else none

/-- One `--filter <path>` token pair per resolved filter, in order
(the `extra_args.extend(["--filter", p])` loop). -/
def pairFlags (flag : String) : List String → List String
  | [] => []
  | p :: rest => flag :: p :: pairFlags flag rest

/-- The filter step of `_prepare_conversion_args`. -/
def filterArgs (filters : Option (List String))
    (defaults_file : Option String) (fs : FS) : Except String (List String) :=
  if truthyL filters then
    match validate_filters (filters.getD []) defaults_file fs with
    | Except.error e => Except.error e
    | Except.ok vf => Except.ok (pairFlags "--filter" vf)
  else Except.ok []

/-- The fixed LaTeX engine priority list. -/
def latex_engines : List String := ["xelatex", "pdflatex", "lualatex"]

/-- The engine probe: the first of `latex_engines` found on the search path
by `shutil.which`. -/
def findLatexEngine (fs : FS) : Option String :=
  latex_engines.find? fs.which

/-- The PDF step of `_prepare_conversion_args`. -/
def pdfArgs (output_format : String) (fs : FS) : Except String (List String) :=
  if output_format = "pdf" then
    match findLatexEngine fs with
    | some eng => Except.ok ["--pdf-engine=" ++ eng, "-V", "geometry:margin=1in"]
    | none =>
        Except.error ("PDF generation requires a LaTeX engine (xelatex, " ++
          "pdflatex, or lualatex). Please install MiKTeX " ++
          "(https://miktex.org/) and ensure it\x27s in your PATH.")
  else Except.ok []

/-- The reference-doc step of `_prepare_conversion_args` (docx only). -/
def refArgs (output_format : String) (reference_doc : Option String) :
    List String :=
  if truthyS reference_doc ∧ output_format = "docx" then
    ["--reference-doc", reference_doc.getD ""]
  else []

/-- Result of `_prepare_conversion_args`: the environment mutation it
performed, and the built token list or the raised `ValueError`. -/
structure PrepResult where
  envOutputDir : Option String
  result : Except String (List String)

/-- `_prepare_conversion_args`.  The environment hint is set before the
filter and PDF steps, so it is recorded even when one of them raises. -/
def prepare_conversion_args (output_format : String)
    (output_file : Option String) (reference_doc : Option String)
    (filters : Option (List String)) (defaults_file : Option String)
    (fs : FS) : PrepResult :=
  { envOutputDir := envHint output_file fs,
    result :=
      match filterArgs filters defaults_file fs with
      | Except.error e => Except.error e
      | Except.ok fa =>
          match pdfArgs output_format fs with
          | Except.error e => Except.error e
          | Except.ok pa =>
              Except.ok (defaultsArgs defaults_file fs ++ fa ++ pa ++
                refArgs output_format reference_doc) }

/-! ## `_format_error_message` -/

/-- The classification step of `_format_error_message`: the message head and
the (possibly rewritten) detail text. -/
def errorParts (errText : String) (defaults_file : Option String) :
    String × String :=
  if pyIn "Filter not found" errText || pyIn "Filter is not executable" errText
  then ("Filter error during conversion", errText)
  else if pyIn "defaults" errText && truthyS defaults_file then
    ("Defaults file error during conversion",
     errText ++ " (defaults file: " ++ defaults_file.getD "" ++ ")")
  else if pyIn "pandoc" (lowerStr errText) && pyIn "not found" (lowerStr errText)
  then ("Pandoc executable not found",
        "Please ensure Pandoc is installed and available in your PATH")
  else ("Error converting", errText)

/-- `_format_error_message`. -/
def format_error_message (errText input_format output_format : String)
    (defaults_file : Option String) (is_file : Bool) : String :=
  (errorParts errText defaults_file).1 ++ " " ++
    (if is_file then "file" else "content") ++ " from " ++ input_format ++
    " to " ++ output_format ++ ": " ++ (errorParts errText defaults_file).2

/-! ## The two entry points -/

/-- Observable outcome of one `create_file` / `convert_file` request. -/
structure CallResult where
  /-- The value `PANDOC_OUTPUT_DIR` was set to during the call, if any. -/
  envOutputDir : Option String
  /-- The output format passed to the pandoc invocation, when one happened. -/
  engineOutputFormat : Option String
  /-- Whether the pandoc invocation was reached. -/
  engineInvoked : Bool
  /-- Whether the output file was written (the engine ran and succeeded). -/
  fileWritten : Bool
  /-- The returned success string or the raised `ValueError` message. -/
  result : Except String String

/-- A request that failed before `_prepare_conversion_args` ran. -/
def noCall (e : String) : CallResult :=
  { envOutputDir := none, engineOutputFormat := none, engineInvoked := false,
    fileWritten := false, result := Except.error e }

/-- The shared `try` block of both tools: prepare the arguments, re-validate
the filters, run the engine in a worker thread, and wrap any raised message
with `_format_error_message`. -/
def run_conversion (input_format output_format output_file : String)
    (reference_doc : Option String) (filters : Option (List String))
    (defaults_file : Option String) (is_file : Bool) (successVerb : String)
    (fs : FS) : CallResult :=
  let p := prepare_conversion_args output_format (some output_file)
    reference_doc filters defaults_file fs
  match p.result with
  | Except.error e =>
      { envOutputDir := p.envOutputDir, engineOutputFormat := none,
        engineInvoked := false, fileWritten := false,
        result := Except.error
          (format_error_message e input_format output_format defaults_file
            is_file) }
  | Except.ok _extra =>
      match (if truthyL filters then
               validate_filters (filters.getD []) defaults_file fs
             else Except.ok []) with
      | Except.error e =>
          { envOutputDir := p.envOutputDir, engineOutputFormat := none,
            engineInvoked := false, fileWritten := false,
            result := Except.error
              (format_error_message e input_format output_format
                defaults_file is_file) }
      | Except.ok validated =>
          match fs.engineRun with
          | EngineOutcome.failure t =>
              { envOutputDir := p.envOutputDir,
                engineOutputFormat := some output_format,
                engineInvoked := true, fileWritten := false,
                result := Except.error
                  (format_error_message t input_format output_format
                    defaults_file is_file) }
          | EngineOutcome.success =>
              { envOutputDir := p.envOutputDir,
                engineOutputFormat := some output_format,
                engineInvoked := true, fileWritten := true,
                result := Except.ok (successVerb ++
                  (format_result_info filters defaults_file validated).1 ++
                  (format_result_info filters defaults_file validated).2 ++
                  " and saved to: " ++ output_file) }

/-- The `create_file` tool. -/
def create_file (content output_file input_format : String)
    (reference_doc : Option String) (filters : Option (List String))
    (defaults_file : Option String) (fs : FS) : CallResult :=
  if content = "" then noCall "content cannot be empty"
  else if output_file = "" then
    noCall "output_file path is required for create_file"
  else if input_format = "" then noCall "input_format is required"
  else
    match infer_format_from_extension output_file with
    | Except.error e => noCall e
    | Except.ok output_format =>
        if ¬ (input_format = "markdown" ∨ input_format = "html") then
          noCall ("Unsupported input format: \x27" ++ input_format ++
            "\x27. Supported formats for create_file: markdown, html")
        else
          match validate_conversion_params output_format reference_doc
              filters defaults_file fs with
          | Except.error e => noCall e
          | Except.ok _warns =>
              run_conversion input_format output_format output_file
                reference_doc filters defaults_file false
                "File successfully created" fs

/-- The `convert_file` tool.  Its error wrapper uses
`input_format or "auto-detected"`; the inferred format is never empty, but
the disjunction is kept faithfully. -/
def convert_file (input_file output_file : String)
    (reference_doc : Option String) (filters : Option (List String))
    (defaults_file : Option String) (fs : FS) : CallResult :=
  if input_file = "" then noCall "input_file is required"
  else if output_file = "" then noCall "output_file is required"
  else if fs.pathExists input_file then
    match infer_format_from_extension input_file with
    | Except.error e => noCall e
    | Except.ok input_format =>
        match infer_format_from_extension output_file with
        | Except.error e => noCall e
        | Except.ok output_format =>
            match validate_conversion_params output_format reference_doc
                filters defaults_file fs with
            | Except.error e => noCall e
            | Except.ok _warns =>
                run_conversion
                  (if input_format = "" then "auto-detected" else input_format)
                  output_format output_file reference_doc filters
                  defaults_file true "File successfully converted" fs
  else noCall ("Input file not found: " ++ input_file)

/-! ## Concrete states used by witnesses and counterexamples -/

/-- A state where nothing exists and no engine is on the path. -/
def fsEmpty : FS :=
  { cwd := "/w", home := "/h",
    pathExists := fun _ => false, isExec := fun _ => false,
    chmodOk := fun _ => false, which := fun _ => false,
    defaultsParse := fun _ => DefaultsParse.readError "missing",
    engineRun := EngineOutcome.success }

/-- A state with a defaults file `defaults.yaml` whose mapping declares
`to: html`. -/
def fsDefaults : FS :=
  { cwd := "/w", home := "/h",
    pathExists := fun p => p == "defaults.yaml", isExec := fun _ => false,
    chmodOk := fun _ => false, which := fun _ => false,
    defaultsParse := fun p =>
      if p == "defaults.yaml" then DefaultsParse.mapping (some "html")
      else DefaultsParse.readError "missing",
    engineRun := EngineOutcome.success }

/-- A state where the filter `f` exists both in the working directory and in
the user filter directory, but the working-directory copy is not executable
and cannot be made executable. -/
def fsChmodFails : FS :=
  { cwd := "/w", home := "/h",
    pathExists := fun p => p == "/w/f" || p == "/h/.pandoc/filters/f",
    isExec := fun p => p == "/h/.pandoc/filters/f",
    chmodOk := fun _ => false, which := fun _ => false,
    defaultsParse := fun _ => DefaultsParse.readError "missing",
    engineRun := EngineOutcome.success }

/-- A state where the filter `g` exists, executable, both in the working
directory and in the user filter directory. -/
def fsBothCopies : FS :=
  { cwd := "/w", home := "/h",
    pathExists := fun p => p == "/w/g" || p == "/h/.pandoc/filters/g",
    isExec := fun p => p == "/w/g" || p == "/h/.pandoc/filters/g",
    chmodOk := fun _ => false, which := fun _ => false,
    defaultsParse := fun _ => DefaultsParse.readError "missing",
    engineRun := EngineOutcome.success }

/-- A state where only the filter `a` (as `/w/a`) exists and is executable. -/
def fsOneFilter : FS :=
  { cwd := "/w", home := "/h",
    pathExists := fun p => p == "/w/a", isExec := fun p => p == "/w/a",
    chmodOk := fun _ => false, which := fun _ => false,
    defaultsParse := fun _ => DefaultsParse.readError "missing",
    engineRun := EngineOutcome.success }

/-- A state with two executable filters `/w/f1`, `/w/f2` and `xelatex` on
the executable search path. -/
def fsPdfReady : FS :=
  { cwd := "/w", home := "/h",
    pathExists := fun p => p == "/w/f1" || p == "/w/f2",
    isExec := fun p => p == "/w/f1" || p == "/w/f2",
    chmodOk := fun _ => false, which := fun e => e == "xelatex",
    defaultsParse := fun _ => DefaultsParse.readError "missing",
    engineRun := EngineOutcome.success }

/-! ## Helper lemmas -/

/-- One step of the resolver scan loop, phrased through `usable`. -/
theorem scanCandidates_cons (fs : FS) (p : String) (rest : List String) :
    scanCandidates fs (p :: rest) =
      if usable fs p then some p else scanCandidates fs rest := by
  by_cases h1 : fs.pathExists p = true <;> by_cases h2 : fs.isExec p = true <;>
    by_cases h3 : fs.chmodOk p = true <;>
      simp [scanCandidates, usable, h1, h2, h3]

/-- The scan loop returns the first usable candidate. -/
theorem scanCandidates_eq_find (fs : FS) (l : List String) :
    scanCandidates fs l = l.find? (usable fs) := by
  induction l with
  | nil => simp [scanCandidates]
  | cons p rest ih =>
      rw [scanCandidates_cons]
      by_cases h : usable fs p = true <;> simp [List.find?, h, ih]

/-- When every reference resolves, `_validate_filters` returns the resolved
paths in input order. -/
theorem validate_filters_all_resolve (fs : FS) (df : Option String) :
    ∀ l : List String,
      (∀ g ∈ l, (resolve_filter_path g df fs).isSome = true) →
      validate_filters l df fs =
        Except.ok (l.map fun g => (resolve_filter_path g df fs).getD "") := by
  intro l
  induction l with
  | nil => intro _; simp [validate_filters]
  | cons g rest ih =>
      intro h
      obtain ⟨r, hr⟩ := Option.isSome_iff_exists.mp (h g (by simp))
      simp [validate_filters, hr, ih (fun x hx => h x (by simp [hx]))]

/-- `_validate_filters` fails on the first unresolved reference, for any
tail after it. -/
theorem validate_filters_first_miss (fs : FS) (df : Option String) :
    ∀ (l₁ : List String) (f : String) (l₂ : List String),
      (∀ g ∈ l₁, (resolve_filter_path g df fs).isSome = true) →
      resolve_filter_path f df fs = none →
      validate_filters (l₁ ++ f :: l₂) df fs =
        Except.error
          ("Filter not found in any of the searched locations: " ++ f) := by
  intro l₁
  induction l₁ with
  | nil => intro f l₂ _ hf; simp [validate_filters, hf]
  | cons g rest ih =>
      intro f l₂ h hf
      obtain ⟨r, hr⟩ := Option.isSome_iff_exists.mp (h g (by simp))
      simp [validate_filters, hr,
        ih f l₂ (fun x hx => h x (by simp [hx])) hf]

/-! ## Claims -/

/-- Claim C1 (code bug in the source): `.txt` infers to the format
identifier `plain`, but the supported-output-format allowlist contains
`txt`, not `plain`, so validating the format inferred from `.txt` always
raises the "Unsupported output format" error — contradicting the tools' own
documentation, which lists `.txt` among the supported output extensions.
The other nine listed extensions do round-trip into the allowlist. -/
theorem c1_txt_inference_rejected :
    infer_format_from_extension "notes.txt" = Except.ok "plain" ∧
    ¬ ("plain" ∈ supported_formats) ∧
    validate_conversion_params "plain" none none none fsEmpty =
      Except.error ("Unsupported output format: \x27plain\x27. Supported formats are: html, markdown, pdf, docx, rst, latex, epub, txt, ipynb, odt") ∧
    (create_file "hello" "notes.txt" "markdown" none none none
        fsEmpty).result =
      Except.error ("Unsupported output format: \x27plain\x27. Supported formats are: html, markdown, pdf, docx, rst, latex, epub, txt, ipynb, odt") ∧
    (create_file "hello" "notes.txt" "markdown" none none none
        fsEmpty).engineInvoked = false ∧
    (["a.html", "a.md", "a.ipynb", "a.odt", "a.pdf", "a.docx", "a.rst",
      "a.tex", "a.epub"].all fun p =>
        match infer_format_from_extension p with
        | Except.ok f => supported_formats.contains f
        | Except.error _ => false) = true :=
  ⟨rfl, by decide, rfl, rfl, rfl, rfl⟩

/-- Claim C10: beyond the ten spec-listed extensions the mapping also
accepts `.htm` (html), `.markdown` (markdown), `.doc` (docx) and `.latex`
(latex) — fourteen extensions in total; the "unsupported extension" error
enumerates all fourteen; and inference is a pure function of the
lower-cased final extension of the path (so it never depends on the file's
existence or content). -/
theorem c10_extension_mapping :
    infer_format_from_extension "a.htm" = Except.ok "html" ∧
    infer_format_from_extension "a.markdown" = Except.ok "markdown" ∧
    infer_format_from_extension "a.doc" = Except.ok "docx" ∧
    infer_format_from_extension "a.latex" = Except.ok "latex" ∧
    ext_to_format.map Prod.fst =
      [".txt", ".html", ".htm", ".md", ".markdown", ".ipynb", ".odt", ".pdf",
       ".docx", ".doc", ".rst", ".tex", ".latex", ".epub"] ∧
    ext_to_format.length = 14 ∧
    infer_format_from_extension "file.xyz" =
      Except.error ("Unsupported file extension: \x27.xyz\x27. Supported extensions: .txt, .html, .htm, .md, .markdown, .ipynb, .odt, .pdf, .docx, .doc, .rst, .tex, .latex, .epub") ∧
    infer_format_from_extension "DIR/NOTE.MD" = Except.ok "markdown" ∧
    ∀ p q : String, lowerExt p = lowerExt q →
      infer_format_from_extension p = infer_format_from_extension q :=
  ⟨rfl, rfl, rfl, rfl, rfl, rfl, rfl, rfl, fun p q h => by
    simp [infer_format_from_extension, h]⟩

/-- Witness for C10: two paths with the same lower-cased extension infer
the same format. -/
theorem c10_witness :
    infer_format_from_extension "x/a.TXT" = infer_format_from_extension "b.txt" :=
  c10_extension_mapping.2.2.2.2.2.2.2.2 "x/a.TXT" "b.txt" rfl

/-- Claim C3: when a reference doc is supplied, validation fails for every
supported output format other than `docx`; with target `docx` it fails when
the path does not exist; with no reference doc supplied neither check can
fire. -/
theorem c3_reference_doc_checks (fs : FS) (fmt r : String)
    (fl : Option (List String)) (df : Option String) :
    (r ≠ "" → fmt ∈ supported_formats → fmt ≠ "docx" →
      validate_conversion_params fmt (some r) fl df fs =
        Except.error
          "reference_doc parameter is only supported for docx output format") ∧
    (r ≠ "" → fs.pathExists r = false →
      validate_conversion_params "docx" (some r) fl df fs =
        Except.error ("Reference document not found: " ++ r)) ∧
    refDocError fmt none fs = none ∧
    refDocError fmt (some "") fs = none := by
  refine ⟨fun hr _ hd => ?_, fun hr hex => ?_, ?_, ?_⟩
  · simp [validate_conversion_params, refDocError, truthyS, hr, hd]
  · simp [validate_conversion_params, refDocError, truthyS, hr, hex]
  · simp [refDocError, truthyS]
  · simp [refDocError, truthyS]

/-- Witness for C3. -/
theorem c3_witness :
    validate_conversion_params "pdf" (some "style.docx") none none fsEmpty =
      Except.error
        "reference_doc parameter is only supported for docx output format" ∧
    validate_conversion_params "docx" (some "style.docx") none none fsEmpty =
      Except.error ("Reference document not found: " ++ "style.docx") :=
  ⟨(c3_reference_doc_checks fsEmpty "pdf" "style.docx" none none).1
      (by decide) (by decide) (by decide),
   (c3_reference_doc_checks fsEmpty "docx" "style.docx" none none).2.1
      (by decide) rfl⟩

/-- Claim C5 counterexample: with the filter present (but not executable and
not chmod-able) in the working directory and present executable in the user
filter directory, the resolver skips the first existing candidate `/w/f`
and returns the user-directory copy, so "returns the first existing
candidate" is false as stated. -/
theorem c5_counterexample :
    candidatePaths "f" none fsChmodFails = ["/w/f", "/h/.pandoc/filters/f"] ∧
    fsChmodFails.pathExists "/w/f" = true ∧
    resolve_filter_path "f" none fsChmodFails =
      some "/h/.pandoc/filters/f" :=
  ⟨rfl, rfl, rfl⟩

/-- Claim C5 (amended): for a non-absolute reference the resolver tries, in
order, the working-directory candidate, the defaults-file-directory
candidate (when a defaults file is supplied), and the user-filter-directory
candidate, and returns the first candidate that exists and is usable
(already executable, or made executable by the best-effort chmod); an
existing candidate that cannot be made executable is skipped.  A filter
whose working-directory copy is usable wins over the user-directory copy.
For an absolute reference only that exact path is checked. -/
theorem c5_resolution_order (fs : FS) (f d : String) :
    (isAbs f = false → usable fs (abspath fs f) = true →
      resolve_filter_path f (some d) fs = some (abspath fs f)) ∧
    (isAbs f = false → d ≠ "" → usable fs (abspath fs f) = false →
      usable fs (pathJoin (dirname (abspath fs d)) f) = true →
      resolve_filter_path f (some d) fs =
        some (pathJoin (dirname (abspath fs d)) f)) ∧
    (isAbs f = false → d ≠ "" → usable fs (abspath fs f) = false →
      usable fs (pathJoin (dirname (abspath fs d)) f) = false →
      usable fs (userFilterDir fs f) = true →
      resolve_filter_path f (some d) fs = some (userFilterDir fs f)) ∧
    (isAbs f = false → d ≠ "" → usable fs (abspath fs f) = false →
      usable fs (pathJoin (dirname (abspath fs d)) f) = false →
      usable fs (userFilterDir fs f) = false →
      resolve_filter_path f (some d) fs = none) ∧
    (isAbs f = false → usable fs (abspath fs f) = false →
      usable fs (userFilterDir fs f) = true →
      resolve_filter_path f none fs = some (userFilterDir fs f)) ∧
    (isAbs f = true →
      resolve_filter_path f (some d) fs =
        (if usable fs f then some f else none)) := by
  refine ⟨fun ha h1 => ?_, fun ha hd h1 h2 => ?_, fun ha hd h1 h2 h3 => ?_,
    fun ha hd h1 h2 h3 => ?_, fun ha h1 h3 => ?_, fun ha => ?_⟩
  · simp [resolve_filter_path, scanCandidates_eq_find, candidatePaths,
      List.find?, ha, h1]
  · simp [resolve_filter_path, scanCandidates_eq_find, candidatePaths,
      List.find?, ha, hd, h1, h2]
  · simp [resolve_filter_path, scanCandidates_eq_find, candidatePaths,
      List.find?, ha, hd, h1, h2, h3]
  · simp [resolve_filter_path, scanCandidates_eq_find, candidatePaths,
      List.find?, ha, hd, h1, h2, h3]
  · simp [resolve_filter_path, scanCandidates_eq_find, candidatePaths,
      List.find?, ha, h1, h3]
  · by_cases h : usable fs f = true <;>
      simp [resolve_filter_path, scanCandidates_eq_find, candidatePaths,
        List.find?, ha, h]

/-- Witness for C5: the usable working-directory copy wins; an absolute
reference that does not exist resolves to nothing. -/
theorem c5_witness :
    resolve_filter_path "g" (some "d.yaml") fsBothCopies = some "/w/g" ∧
    resolve_filter_path "/abs/g" (some "d.yaml") fsBothCopies = none := by
  constructor
  · exact (c5_resolution_order fsBothCopies "g" "d.yaml").1 rfl rfl
  · exact ((c5_resolution_order fsBothCopies "/abs/g" "d.yaml").2.2.2.2.2
      rfl).trans (by decide)

/-- Claim C6: `_validate_filters` is fail-fast: when every reference before
`f` resolves and `f` resolves to no candidate, it raises the "filter not
found" error naming `f`, whatever list follows `f` (nothing after the first
miss influences the outcome, and no partial result is returned); when every
reference resolves it returns the resolved absolute paths in input order. -/
theorem c6_validate_filters_failfast (fs : FS) (df : Option String) :
    (∀ (l₁ : List String) (f : String) (l₂ : List String),
      (∀ g ∈ l₁, (resolve_filter_path g df fs).isSome = true) →
      resolve_filter_path f df fs = none →
      validate_filters (l₁ ++ f :: l₂) df fs =
        Except.error
          ("Filter not found in any of the searched locations: " ++ f)) ∧
    (∀ l : List String,
      (∀ g ∈ l, (resolve_filter_path g df fs).isSome = true) →
      validate_filters l df fs =
        Except.ok (l.map fun g => (resolve_filter_path g df fs).getD "")) :=
  ⟨validate_filters_first_miss fs df, validate_filters_all_resolve fs df⟩

/-- Witness for C6. -/
theorem c6_witness :
    validate_filters ["a", "b", "c"] none fsOneFilter =
      Except.error
        ("Filter not found in any of the searched locations: " ++ "b") ∧
    validate_filters ["a"] none fsOneFilter =
      Except.ok
        (["a"].map fun g => (resolve_filter_path g none fsOneFilter).getD "") :=
  ⟨(c6_validate_filters_failfast fsOneFilter none).1 ["a"] "b" ["c"]
      (by decide) rfl,
   (c6_validate_filters_failfast fsOneFilter none).2 ["a"] (by decide)⟩

/-- A list starts with itself (followed by anything). -/
theorem strStartsWith_self_append (n b : List Char) :
    strStartsWithChars (n ++ b) n = true := by
  induction n with
  | nil => cases b <;> simp [strStartsWithChars]
  | cons a as ih => simp [strStartsWithChars, ih]

/-- A list occurs at the head of itself followed by anything. -/
theorem hasSub_append_self (n b : List Char) :
    hasSubChars (n ++ b) n = true := by
  cases n with
  | nil => cases b <;> simp [hasSubChars, strStartsWithChars]
  | cons a as =>
      simp only [hasSubChars, Bool.or_eq_true]
      exact Or.inl (by simpa using strStartsWith_self_append (a :: as) b)

/-- Substring occurrence survives prepending. -/
theorem hasSub_append_left (x c n : List Char)
    (h : hasSubChars c n = true) : hasSubChars (x ++ c) n = true := by
  induction x with
  | nil => simpa using h
  | cons a as ih => simp [hasSubChars, ih]

/-- Python `t in s ++ t` holds. -/
theorem pyIn_append_self (s t : String) : pyIn t (s ++ t) = true := by
  unfold pyIn
  rw [show (s ++ t).toList = s.toList ++ t.toList from by simp [String.toList]]
  exact hasSub_append_left _ _ _ (by simpa using hasSub_append_self t.toList [])

/-- Claim C2 counterexample: a filter reference that resolves to no existing
candidate is a validation failure raised before the engine is invoked (the
claim is right there), but when `create_file` raises it the process-wide
output-directory hint has already been set to `/w/out` — refuting "no
process-wide state (such as the output-directory hint) is changed before
the failure is raised". -/
theorem c2_counterexample :
    (create_file "hello" "out/doc.md" "markdown" none (some ["myfilter"])
        none fsEmpty).result =
      Except.error "Filter error during conversion content from markdown to markdown: Filter not found in any of the searched locations: myfilter" ∧
    (create_file "hello" "out/doc.md" "markdown" none (some ["myfilter"])
        none fsEmpty).engineInvoked = false ∧
    (create_file "hello" "out/doc.md" "markdown" none (some ["myfilter"])
        none fsEmpty).envOutputDir = some "/w/out" :=
  ⟨rfl, rfl, rfl⟩

/-- Claim C2 (amended): every validation failure of `create_file` or
`convert_file` is raised before the conversion engine is invoked and before
any output file is written; a failure raised by
`_validate_conversion_params` (or earlier) additionally leaves the
output-directory hint untouched, but a failure raised inside
`_prepare_conversion_args` (filter resolution or the PDF-engine probe)
occurs after the hint has already been set to the output file's
directory. -/
theorem c2_validation_failfast (content output_file input_file input_format
      ofmt ifmt e₁ e₂ : String) (rd : Option String)
    (fl : Option (List String)) (df : Option String) (fs : FS)
    (ws : List String)
    (hc : content ≠ "") (ho : output_file ≠ "")
    (hif : input_format = "markdown" ∨ input_format = "html")
    (hinf : infer_format_from_extension output_file = Except.ok ofmt) :
    (validate_conversion_params ofmt rd fl df fs = Except.error e₁ →
      create_file content output_file input_format rd fl df fs =
        noCall e₁) ∧
    (validate_conversion_params ofmt rd fl df fs = Except.ok ws →
     (prepare_conversion_args ofmt (some output_file) rd fl df fs).result =
        Except.error e₂ →
      create_file content output_file input_format rd fl df fs =
        { envOutputDir := some (dirname (abspath fs output_file)),
          engineOutputFormat := none, engineInvoked := false,
          fileWritten := false,
          result := Except.error
            (format_error_message e₂ input_format ofmt df false) }) ∧
    (input_file ≠ "" → fs.pathExists input_file = true →
     infer_format_from_extension input_file = Except.ok ifmt →
     validate_conversion_params ofmt rd fl df fs = Except.error e₁ →
      convert_file input_file output_file rd fl df fs = noCall e₁) ∧
    (input_file ≠ "" → fs.pathExists input_file = true →
     infer_format_from_extension input_file = Except.ok ifmt →
     validate_conversion_params ofmt rd fl df fs = Except.ok ws →
     (prepare_conversion_args ofmt (some output_file) rd fl df fs).result =
        Except.error e₂ →
      convert_file input_file output_file rd fl df fs =
        { envOutputDir := some (dirname (abspath fs output_file)),
          engineOutputFormat := none, engineInvoked := false,
          fileWritten := false,
          result := Except.error
            (format_error_message e₂
              (if ifmt = "" then "auto-detected" else ifmt) ofmt df
              true) }) := by
  have he : (prepare_conversion_args ofmt (some output_file) rd fl df
      fs).envOutputDir = some (dirname (abspath fs output_file)) := by
    simp [prepare_conversion_args, envHint, truthyS, ho]
  refine ⟨fun hv => ?_, fun hv hp => ?_, fun hi hex hinf2 hv => ?_,
    fun hi hex hinf2 hv hp => ?_⟩
  · rcases hif with h | h <;> subst h <;>
      simp [create_file, hc, ho, hinf, hv]
  · rcases hif with h | h <;> subst h <;>
      simp [create_file, hc, ho, hinf, hv, run_conversion, hp, he]
  · simp [convert_file, hi, ho, hex, hinf2, hinf, hv]
  · simp [convert_file, hi, ho, hex, hinf2, hinf, hv, run_conversion, hp, he]

/-- Witness for C2: a parameter-validation failure leaves the hint unset;
a filter-resolution failure is still raised before invocation but with the
hint already set. -/
theorem c2_witness :
    create_file "hi" "o.md" "markdown" (some "ref.docx") none none fsEmpty =
      noCall
        "reference_doc parameter is only supported for docx output format" ∧
    create_file "hi" "out/o.md" "markdown" none (some ["zz"]) none fsEmpty =
      { envOutputDir := some (dirname (abspath fsEmpty "out/o.md")),
        engineOutputFormat := none, engineInvoked := false,
        fileWritten := false,
        result := Except.error (format_error_message
          "Filter not found in any of the searched locations: zz"
          "markdown" "markdown" none false) } :=
  ⟨(c2_validation_failfast "hi" "o.md" "x" "markdown" "markdown" "x"
      "reference_doc parameter is only supported for docx output format" "x"
      (some "ref.docx") none none fsEmpty [] (by decide) (by decide)
      (Or.inl rfl) rfl).1 rfl,
   (c2_validation_failfast "hi" "out/o.md" "x" "markdown" "markdown" "x" "x"
      "Filter not found in any of the searched locations: zz"
      none (some ["zz"]) none fsEmpty [] (by decide) (by decide)
      (Or.inl rfl) rfl).2.1 rfl rfl⟩

/-- Claim C4: a defaults file that exists, parses to a mapping, and declares
a `to` format different from the requested one only produces a warning (no
failure), and the output format passed to the engine invocation is the
caller's requested format, never the defaults file's. -/
theorem c4_defaults_conflict_warns (fs : FS) (df t ofmt : String)
    (fl : Option (List String))
    (hdf : df ≠ "") (hex : fs.pathExists df = true)
    (hp : fs.defaultsParse df = DefaultsParse.mapping (some t))
    (ht : t ≠ ofmt) (hsup : ofmt ∈ supported_formats) :
    validate_conversion_params ofmt none fl (some df) fs =
      Except.ok [warnMsg t ofmt] ∧
    (∀ content output_file pa,
      content ≠ "" → output_file ≠ "" →
      infer_format_from_extension output_file = Except.ok ofmt →
      pdfArgs ofmt fs = Except.ok pa →
      (create_file content output_file "markdown" none none (some df)
          fs).engineOutputFormat = some ofmt ∧
      (create_file content output_file "markdown" none none (some df)
          fs).engineOutputFormat ≠ some t) := by
  have hval : ∀ fl' : Option (List String),
      validate_conversion_params ofmt none fl' (some df) fs =
        Except.ok [warnMsg t ofmt] := by
    intro fl'
    simp [validate_conversion_params, refDocError, truthyS, defaultsCheck,
      hdf, hex, hp, ht, formatAllowError, hsup]
  refine ⟨hval fl, fun content output_file pa hc ho hinf hpa => ?_⟩
  have hfmt : (create_file content output_file "markdown" none none (some df)
      fs).engineOutputFormat = some ofmt := by
    cases hrun : fs.engineRun <;>
      simp [create_file, hc, ho, hinf, hval none, run_conversion,
        prepare_conversion_args, filterArgs, truthyL, hpa, hrun]
  exact ⟨hfmt, by
    simp only [hfmt, ne_eq, Option.some.injEq]
    exact fun hh => ht hh.symm⟩

/-- Witness for C4: the `to: html` defaults file conflicts with the
requested `markdown`; validation only warns and the engine is invoked with
`markdown`. -/
theorem c4_witness :
    validate_conversion_params "markdown" none none (some "defaults.yaml")
        fsDefaults = Except.ok [warnMsg "html" "markdown"] ∧
    (create_file "hi" "o.md" "markdown" none none (some "defaults.yaml")
        fsDefaults).engineOutputFormat = some "markdown" := by
  have h := c4_defaults_conflict_warns fsDefaults "defaults.yaml" "html"
    "markdown" none (by decide) rfl rfl (by decide) (by decide)
  exact ⟨h.1, (h.2 "hi" "o.md" [] (by decide) (by decide) rfl rfl).1⟩

/-- Claim C7: with defaults file `d`, resolvable filters `[f1, f2]`, target
`pdf` and a styling template supplied, the built token list is exactly the
defaults pair, then the filter pairs in input order, then the PDF-engine
tokens, with no styling-template tokens (those require target `docx`); and
the filter token pairs preserve the input order for every resolvable
filter list. -/
theorem c7_argument_order (fs : FS) (d f1 f2 r1 r2 ref eng : String)
    (ofile : Option String)
    (hd : d ≠ "")
    (h1 : resolve_filter_path f1 (some d) fs = some r1)
    (h2 : resolve_filter_path f2 (some d) fs = some r2)
    (he : findLatexEngine fs = some eng) :
    (prepare_conversion_args "pdf" ofile (some ref) (some [f1, f2]) (some d)
        fs).result =
      Except.ok (["--defaults", abspath fs d] ++
        ["--filter", r1, "--filter", r2] ++
        ["--pdf-engine=" ++ eng, "-V", "geometry:margin=1in"]) ∧
    (∀ l : List String,
      (∀ g ∈ l, (resolve_filter_path g (some d) fs).isSome = true) →
      (prepare_conversion_args "pdf" ofile (some ref) (some l) (some d)
          fs).result =
        Except.ok (["--defaults", abspath fs d] ++
          pairFlags "--filter"
            (l.map fun g => (resolve_filter_path g (some d) fs).getD "") ++
          ["--pdf-engine=" ++ eng, "-V", "geometry:margin=1in"])) := by
  constructor
  · simp [prepare_conversion_args, filterArgs, truthyL, validate_filters,
      h1, h2, pdfArgs, he, defaultsArgs, truthyS, hd, refArgs, pairFlags]
  · intro l hl
    rcases l with _ | ⟨g, rest⟩
    · simp [prepare_conversion_args, filterArgs, truthyL, pdfArgs, he,
        defaultsArgs, truthyS, hd, refArgs, pairFlags]
    · simp [prepare_conversion_args, filterArgs, truthyL,
        validate_filters_all_resolve fs (some d) (g :: rest) hl, pdfArgs, he,
        defaultsArgs, truthyS, hd, refArgs]

/-- Witness for C7. -/
theorem c7_witness :
    (prepare_conversion_args "pdf" (some "/w/o.pdf") (some "style.docx")
        (some ["f1", "f2"]) (some "d.yaml") fsPdfReady).result =
      Except.ok (["--defaults", abspath fsPdfReady "d.yaml"] ++
        ["--filter", "/w/f1", "--filter", "/w/f2"] ++
        ["--pdf-engine=" ++ "xelatex", "-V", "geometry:margin=1in"]) :=
  (c7_argument_order fsPdfReady "d.yaml" "f1" "f2" "/w/f1" "/w/f2"
    "style.docx" "xelatex" (some "/w/o.pdf") (by decide) rfl rfl rfl).1

/-- Claim C8: for target `pdf` the builder probes exactly `xelatex`,
`pdflatex`, `lualatex` in that priority order and selects the first found
on the executable search path, appending the engine-selection token and the
fixed margin tokens; when none of the three is found it raises the
actionable "install a LaTeX engine" error, and the entry point raises it
without ever invoking the conversion engine. -/
theorem c8_pdf_engine_probe (fs : FS) (ofile rd : Option String)
    (df : Option String) :
    (fs.which "xelatex" = true → findLatexEngine fs = some "xelatex") ∧
    (fs.which "xelatex" = false → fs.which "pdflatex" = true →
      findLatexEngine fs = some "pdflatex") ∧
    (fs.which "xelatex" = false → fs.which "pdflatex" = false →
      fs.which "lualatex" = true → findLatexEngine fs = some "lualatex") ∧
    (fs.which "xelatex" = false → fs.which "pdflatex" = false →
      fs.which "lualatex" = false →
      findLatexEngine fs = none ∧
      (prepare_conversion_args "pdf" ofile rd none df fs).result =
        Except.error ("PDF generation requires a LaTeX engine (xelatex, " ++
          "pdflatex, or lualatex). Please install MiKTeX " ++
          "(https://miktex.org/) and ensure it\x27s in your PATH.")) ∧
    (∀ eng, findLatexEngine fs = some eng →
      (prepare_conversion_args "pdf" ofile rd none df fs).result =
        Except.ok (defaultsArgs df fs ++
          ["--pdf-engine=" ++ eng, "-V", "geometry:margin=1in"])) ∧
    (∀ content output_file ws, content ≠ "" → output_file ≠ "" →
      infer_format_from_extension output_file = Except.ok "pdf" →
      validate_conversion_params "pdf" rd none df fs = Except.ok ws →
      findLatexEngine fs = none →
      (create_file content output_file "markdown" rd none df
          fs).engineInvoked = false ∧
      (create_file content output_file "markdown" rd none df
          fs).fileWritten = false) := by
  refine ⟨fun hx => ?_, fun hx hp => ?_, fun hx hp hl => ?_,
    fun hx hp hl => ⟨?_, ?_⟩, fun eng he => ?_,
    fun content output_file ws hc ho hinf hv hn => ?_⟩
  · simp [findLatexEngine, latex_engines, List.find?, hx]
  · simp [findLatexEngine, latex_engines, List.find?, hx, hp]
  · simp [findLatexEngine, latex_engines, List.find?, hx, hp, hl]
  · simp [findLatexEngine, latex_engines, List.find?, hx, hp, hl]
  · have hn : findLatexEngine fs = none := by
      simp [findLatexEngine, latex_engines, List.find?, hx, hp, hl]
    simp [prepare_conversion_args, filterArgs, truthyL, pdfArgs, hn]
  · simp [prepare_conversion_args, filterArgs, truthyL, pdfArgs, he,
      refArgs]
  · have hp2 : (prepare_conversion_args "pdf" (some output_file) rd none df
        fs).result = Except.error
          ("PDF generation requires a LaTeX engine (xelatex, " ++
            "pdflatex, or lualatex). Please install MiKTeX " ++
            "(https://miktex.org/) and ensure it\x27s in your PATH.") := by
      simp [prepare_conversion_args, filterArgs, truthyL, pdfArgs, hn]
    constructor <;>
      simp [create_file, hc, ho, hinf, hv, run_conversion, hp2]

/-- Witness for C8. -/
theorem c8_witness :
    findLatexEngine fsPdfReady = some "xelatex" ∧
    (prepare_conversion_args "pdf" (some "/w/o.pdf") none none none
        fsEmpty).result =
      Except.error ("PDF generation requires a LaTeX engine (xelatex, " ++
        "pdflatex, or lualatex). Please install MiKTeX " ++
        "(https://miktex.org/) and ensure it\x27s in your PATH.") ∧
    (create_file "hi" "o.pdf" "markdown" none none none
        fsEmpty).engineInvoked = false :=
  ⟨(c8_pdf_engine_probe fsPdfReady none none none).1 rfl,
   ((c8_pdf_engine_probe fsEmpty (some "/w/o.pdf") none none).2.2.2.1
      rfl rfl rfl).2,
   ((c8_pdf_engine_probe fsEmpty none none none).2.2.2.2.2 "hi" "o.pdf" []
      (by decide) (by decide) rfl rfl rfl).1⟩

/-- Claim C9 counterexample: for an engine error whose text mentions the
pandoc executable being missing, the classified message replaces the
underlying detail with fixed remediation text, so the message does not
contain the underlying detail — refuting "the resulting message always
names ... the underlying detail". -/
theorem c9_counterexample :
    format_error_message "pandoc: not found" "markdown" "pdf" none true =
      "Pandoc executable not found file from markdown to pdf: Please ensure Pandoc is installed and available in your PATH" ∧
    pyIn "pandoc: not found"
      (format_error_message "pandoc: not found" "markdown" "pdf" none true) =
      false :=
  ⟨rfl, by decide⟩

/-- Claim C9 (amended): every engine failure is classified into exactly one
of four categories with the stated precedence — filter errors first, then
defaults errors (only when a defaults file was supplied), then the missing
pandoc executable, then generic — and the message always names the source
kind (file vs content), source format and target format; it contains the
underlying detail in the filter, defaults and generic categories, while in
the missing-executable category the detail is replaced by fixed remediation
text. -/
theorem c9_error_classification (t ifmt ofmt : String) (df : Option String)
    (isf : Bool) :
    ((pyIn "Filter not found" t || pyIn "Filter is not executable" t) =
        true →
      format_error_message t ifmt ofmt df isf =
        "Filter error during conversion" ++ " " ++
          (if isf then "file" else "content") ++ " from " ++ ifmt ++ " to "
          ++ ofmt ++ ": " ++ t ∧
      pyIn t (format_error_message t ifmt ofmt df isf) = true) ∧
    ((pyIn "Filter not found" t || pyIn "Filter is not executable" t) =
        false →
     (pyIn "defaults" t && truthyS df) = true →
      format_error_message t ifmt ofmt df isf =
        "Defaults file error during conversion" ++ " " ++
          (if isf then "file" else "content") ++ " from " ++ ifmt ++ " to "
          ++ ofmt ++ ": " ++
          (t ++ " (defaults file: " ++ df.getD "" ++ ")")) ∧
    ((pyIn "Filter not found" t || pyIn "Filter is not executable" t) =
        false →
     (pyIn "defaults" t && truthyS df) = false →
     (pyIn "pandoc" (lowerStr t) && pyIn "not found" (lowerStr t)) = true →
      format_error_message t ifmt ofmt df isf =
        "Pandoc executable not found" ++ " " ++
          (if isf then "file" else "content") ++ " from " ++ ifmt ++ " to "
          ++ ofmt ++ ": " ++
          "Please ensure Pandoc is installed and available in your PATH") ∧
    ((pyIn "Filter not found" t || pyIn "Filter is not executable" t) =
        false →
     (pyIn "defaults" t && truthyS df) = false →
     (pyIn "pandoc" (lowerStr t) && pyIn "not found" (lowerStr t)) = false →
      format_error_message t ifmt ofmt df isf =
        "Error converting" ++ " " ++ (if isf then "file" else "content") ++
          " from " ++ ifmt ++ " to " ++ ofmt ++ ": " ++ t ∧
      pyIn t (format_error_message t ifmt ofmt df isf) = true) := by
  refine ⟨fun h1 => ⟨?_, ?_⟩, fun h1 h2 => ?_, fun h1 h2 h3 => ?_,
    fun h1 h2 h3 => ⟨?_, ?_⟩⟩
  · simp [format_error_message, errorParts, h1]
  · simp only [format_error_message, errorParts, h1, if_true]
    exact pyIn_append_self _ t
  · simp [format_error_message, errorParts, h1, h2]
  · simp [format_error_message, errorParts, h1, h2, h3]
  · simp [format_error_message, errorParts, h1, h2, h3]
  · simp only [format_error_message, errorParts, h1, h2, h3]
    exact pyIn_append_self _ t

/-- Witness for C9: one concrete message per provable category. -/
theorem c9_witness :
    format_error_message "Filter not found: x" "markdown" "pdf" none false =
      "Filter error during conversion" ++ " " ++
        (if false then "file" else "content") ++ " from " ++ "markdown" ++
        " to " ++ "pdf" ++ ": " ++ "Filter not found: x" ∧
    format_error_message "could not read defaults file" "html" "docx"
        (some "d.yaml") true =
      "Defaults file error during conversion" ++ " " ++
        (if true then "file" else "content") ++ " from " ++ "html" ++
        " to " ++ "docx" ++ ": " ++
        ("could not read defaults file" ++ " (defaults file: " ++
          (some "d.yaml").getD "" ++ ")") ∧
    format_error_message "boom" "markdown" "epub" none false =
      "Error converting" ++ " " ++ (if false then "file" else "content") ++
        " from " ++ "markdown" ++ " to " ++ "epub" ++ ": " ++ "boom" :=
  ⟨((c9_error_classification "Filter not found: x" "markdown" "pdf" none
      false).1 (by decide)).1,
   (c9_error_classification "could not read defaults file" "html" "docx"
      (some "d.yaml") true).2.1 (by decide) (by decide),
   ((c9_error_classification "boom" "markdown" "epub" none false).2.2.2
      (by decide) (by decide) (by decide)).1⟩
